import Mathlib

/-!
# Verification of the last30days-skill search/UI helper modules

Shallow embedding of `src/scripts/lib/hn_search.py` (Hacker News search via
the Algolia API) and the non-interactive part of `src/scripts/lib/ui.py`
(the `Spinner` class), together with theorems settling the specification
claims about them.

Modelling conventions:
* Python dict-shaped JSON values are modelled by structures with `Option`
  fields (`none` = key absent), following the field types the data model
  gives them (`created_at_i` is epoch seconds, i.e. an integer).
* Python string truthiness (`None` and `""` are falsy) is `truthyStr`.
* Machine dates: the process runs with a UTC local time zone, so
  `datetime.fromtimestamp` / naive `datetime.timestamp()` are modelled as
  proleptic-Gregorian civil-date conversion at UTC (Hinnant's algorithms).
* Exceptions are explicit: fallible functions return `Except Exn α`.
  `datetime.fromtimestamp` raises `OverflowError` for timestamps outside
  the 64-bit `time_t` range, and `ValueError`/`OSError` for in-range
  timestamps that do not yield a representable calendar date; the parser's
  `except (ValueError, OSError)` clause catches only the latter two, which
  the three-valued `TsOutcome` records.
* The HTTP layer (`http.get`) is external to the two source files; it is
  modelled as an oracle argument `httpGet`.  The query-string serialization
  (`urlencode`) is abstracted away: the oracle receives the structured
  parameters, whose values no claim inspects through the serialization.
* `float` relevance `0.7` is modelled as the rational `7/10`.
-/

namespace HN

/-- An uncaught Python exception flowing out of the embedded code:
its class name and its message. -/
structure Exn where
  name : String
  msg : String
deriving Repr, DecidableEq

/-! ## Calendar arithmetic (UTC model of `datetime`) -/

/-- Days since 1970-01-01 of the proleptic-Gregorian date `(y, m, d)`
(Hinnant's days-from-civil algorithm, floor division throughout). -/
def daysFromCivil (y m d : Int) : Int :=
  let y₂ := y - (if m ≤ 2 then 1 else 0)
  let era := Int.fdiv y₂ 400
  let yoe := y₂ - era * 400
  let mp := if m > 2 then m - 3 else m + 9
  let doy := Int.fdiv (153 * mp + 2) 5 + d - 1
  let doe := yoe * 365 + Int.fdiv yoe 4 - Int.fdiv yoe 100 + doy
  era * 146097 + doe - 719468

/-- Proleptic-Gregorian date `(y, m, d)` of a count of days since
1970-01-01 (Hinnant's civil-from-days algorithm). -/
def civilFromDays (z₀ : Int) : Int × Int × Int :=
  let z := z₀ + 719468
  let era := Int.fdiv z 146097
  let doe := z - era * 146097
  let yoe := Int.fdiv (doe - Int.fdiv doe 1460 + Int.fdiv doe 36524 - Int.fdiv doe 146096) 365
  let y := yoe + era * 400
  let doy := doe - (365 * yoe + Int.fdiv yoe 4 - Int.fdiv yoe 100)
  let mp := Int.fdiv (5 * doy + 2) 153
  let d := doy - Int.fdiv (153 * mp + 2) 5 + 1
  let m := if mp < 10 then mp + 3 else mp - 9
  (if m ≤ 2 then y + 1 else y, m, d)

/-- Gregorian leap-year test. -/
def isLeap (y : Int) : Bool :=
  y % 4 = 0 ∧ (y % 100 ≠ 0 ∨ y % 400 = 0)

/-- Length of month `m` in year `y`. -/
def daysInMonth (y m : Int) : Int :=
  if m = 2 then (if isLeap y then 29 else 28)
  else if m = 4 ∨ m = 6 ∨ m = 9 ∨ m = 11 then 30
  else 31

/-- Two-digit zero padding, as `strftime` pads `%m` and `%d`. -/
def pad2 (n : Int) : String :=
  if n < 10 then "0" ++ toString n else toString n

/-- `strftime("%Y-%m-%d")` on glibc: the year is printed unpadded,
month and day are zero-padded to two digits. -/
def formatYMD (y m d : Int) : String :=
  toString y ++ "-" ++ pad2 m ++ "-" ++ pad2 d

/-! ## `_date_to_timestamp` (source lines 37–40): `strptime` + `timestamp()` -/

/-- Split a character list at every occurrence of `sep` (the boundary
structure `strptime`'s format-directed match imposes via the literal dashes
of `"%Y-%m-%d"`); always returns a nonempty list of groups. -/
def splitOnChar (sep : Char) : List Char → List (List Char)
  | [] => [[]]
  | c :: rest =>
    match splitOnChar sep rest with
    | [] => [[c]]
    | g :: gs => if c = sep then [] :: g :: gs else (c :: g) :: gs

/-- Decimal value of a digit run. -/
def digitsVal (cs : List Char) : Nat :=
  cs.foldl (fun n c => n * 10 + (c.toNat - 48)) 0

/-- A run of ASCII digits of length in `[minLen, maxLen]`, as matched by the
`strptime` regex fragments (`%Y` is exactly four digits, `%m`/`%d` are one
or two digits). -/
def parseDigits (cs : List Char) (minLen maxLen : Nat) : Option Nat :=
  if minLen ≤ cs.length ∧ cs.length ≤ maxLen ∧ cs.all Char.isDigit then
    some (digitsVal cs)
  else none

/-- `datetime.strptime(s, "%Y-%m-%d")`: a four-digit year, a dash, a one- or
two-digit month in 1..12, a dash, a one- or two-digit day valid for that
month, matching the whole string; the subsequent `datetime` construction
additionally requires year ≥ 1.  `none` models the raised `ValueError`. -/
def strptimeYMD (s : String) : Option (Int × Int × Int) :=
  match splitOnChar '-' s.toList with
  | [ys, ms, ds] =>
    match parseDigits ys 4 4, parseDigits ms 1 2, parseDigits ds 1 2 with
    | some y, some m, some d =>
      if 1 ≤ y ∧ 1 ≤ m ∧ m ≤ 12 ∧ 1 ≤ d ∧ (d : Int) ≤ daysInMonth y m then
        some (y, m, d)
      else none
    | _, _, _ => none
  | _ => none

/-- The `ValueError` that `datetime.strptime` raises on a rejected string
(the exact Python message text is not modelled). -/
def strptimeValueError (s : String) : Exn :=
  ⟨"ValueError", "time data " ++ s ++ " does not match format %Y-%m-%d"⟩

/-- `_date_to_timestamp(date_str)`: `strptime("%Y-%m-%d")` then `.timestamp()`
of the resulting midnight-local (UTC) datetime.  A string the format rejects
raises `ValueError`, which this function does not catch. -/
def date_to_timestamp (date_str : String) : Except Exn Int :=
  match strptimeYMD date_str with
  | none => .error (strptimeValueError date_str)
  | some (y, m, d) => .ok (daysFromCivil y m d * 86400)

/-! ## `_timestamp_to_date` (source lines 43–45): `fromtimestamp` + `strftime` -/

/-- Outcome of `datetime.fromtimestamp(ts).strftime("%Y-%m-%d")`, split by
how `parse_hn_response`'s `except (ValueError, OSError)` clause treats it. -/
inductive TsOutcome where
  /-- Conversion succeeded with the given `YYYY-MM-DD` string. -/
  | ok (date : String)
  /-- `ValueError` or `OSError` (in-range `time_t`, unrepresentable date):
  caught by the parser. -/
  | caughtFailure
  /-- `OverflowError` (timestamp out of range for the platform 64-bit
  `time_t`): NOT in the parser's except clause. -/
  | overflowError
deriving Repr, DecidableEq

/-- The `OverflowError` raised by `fromtimestamp` on a timestamp outside the
64-bit `time_t` range. -/
def overflowExn : Exn :=
  ⟨"OverflowError", "timestamp out of range for platform time_t"⟩

/-- `_timestamp_to_date(ts)` under a UTC local zone: timestamps outside
`[-2^63, 2^63)` overflow `time_t` (`OverflowError`); in-range timestamps
convert to a civil date, which `datetime` accepts only for years 1..9999
(`ValueError`/`OSError` otherwise). -/
def timestamp_to_date (ts : Int) : TsOutcome :=
  if ts < -(2 ^ 63) ∨ 2 ^ 63 ≤ ts then .overflowError
  else
    let c := civilFromDays (Int.fdiv ts 86400)
    if 1 ≤ c.1 ∧ c.1 ≤ 9999 then .ok (formatYMD c.1 c.2.1 c.2.2)
    else .caughtFailure

/-! ## Data model -/

/-- A raw hit from the Algolia endpoint; the fields the module consumes,
`none` meaning the key is absent. -/
structure Hit where
  title : Option String := none
  story_title : Option String := none
  url : Option String := none
  objectID : Option String := none
  author : Option String := none
  created_at_i : Option Int := none
  points : Option Int := none
  num_comments : Option Int := none
deriving Repr, DecidableEq

/-- A raw API response: an optional `error` key (`none` = key absent) and a
`hits` array (`hits = []` also covers an absent key, read via
`response.get("hits", [])`). -/
structure Response where
  error : Option String := none
  hits : List Hit := []
deriving Repr, DecidableEq

/-- The `engagement` sub-dict of a normalized item. -/
structure Engagement where
  score : Option Int := none
  num_comments : Option Int := none
deriving Repr, DecidableEq

/-- A normalized HN item as built by `parse_hn_response`. -/
structure Item where
  id : String
  title : String
  url : String
  hn_url : String
  author : String
  date : Option String
  engagement : Engagement
  relevance : ℚ
  why_relevant : String
deriving Repr, DecidableEq

/-- Python truthiness of an optional string: `None` and `""` are falsy. -/
def truthyStr : Option String → Bool
  | none => false
  | some s => s ≠ ""

/-- Python `a or b` for an optional string `a` and a string default `b`. -/
def pyOrStr (a : Option String) (b : String) : String :=
  if truthyStr a then a.getD "" else b

/-! ## `search_hn` (source lines 48–94) -/

/-- Depth configuration: `(min_results, max_results)` per depth level;
`DEPTH_CONFIG.get(depth, DEPTH_CONFIG["default"])` falls back to the
`"default"` entry for unrecognized keys. -/
def DEPTH_CONFIG (depth : String) : Nat × Nat :=
  if depth = "quick" then (8, 12)
  else if depth = "default" then (20, 30)
  else if depth = "deep" then (50, 70)
  else (20, 30)

/-- The structured query parameters of the single HTTP GET
(their `urlencode` serialization into the URL is abstracted away). -/
structure Params where
  query : String
  tags : String
  numericFilters : String
  hitsPerPage : Nat
deriving Repr, DecidableEq

/-- What a `search_hn` call did: the response it returned, the HTTP GET
requests it issued, and the lines it wrote to stderr. -/
structure SearchResult where
  response : Response
  requests : List Params
  stderrLines : List String
deriving Repr, DecidableEq

/-- The `params` dict `search_hn` builds (source lines 77–82). -/
def requestParams (topic : String) (from_ts to_ts : Int) (max_results : Nat) : Params :=
  { query := topic
    tags := "story"
    numericFilters :=
      "created_at_i>=" ++ toString from_ts ++ ",created_at_i<=" ++ toString to_ts
    hitsPerPage := max_results }

/-- The page sizes of the requests a `search_hn` call issued. -/
def requestPageSizes (res : Except Exn SearchResult) : Except Exn (List Nat) :=
  res.map (fun r => r.requests.map Params.hitsPerPage)

/-- `_log_error(msg)`: the line written to stderr. -/
def logErrorLine (msg : String) : String :=
  "[HN] ERROR: " ++ msg ++ "\n"

/-- `search_hn(topic, from_date, to_date, depth, mock_response)`.
`httpGet` is the `http.get` oracle (`.error e` = the call raised `e`); an
`.error` result of `search_hn` itself is an exception propagating to the
caller.  The `try` block covers only the GET: `except http.HTTPError` logs
`API error: ...`, the catch-all `except Exception` logs the exception class
name, and both return the `{error, hits: []}` sentinel. -/
def search_hn (httpGet : Params → Except Exn Response)
    (topic from_date to_date : String) (depth : String := "default")
    (mock_response : Option Response := none) : Except Exn SearchResult :=
  match mock_response with
  | some r => .ok ⟨r, [], []⟩
  | none =>
    let max_results := (DEPTH_CONFIG depth).2
    match date_to_timestamp from_date with
    | .error e => .error e
    | .ok from_ts =>
      match date_to_timestamp to_date with
      | .error e => .error e
      | .ok to_ts₀ =>
        let to_ts := to_ts₀ + 86400
        let params := requestParams topic from_ts to_ts max_results
        match httpGet params with
        | .ok response => .ok ⟨response, [params], []⟩
        | .error e =>
          let line :=
            if e.name = "HTTPError" then logErrorLine ("API error: " ++ e.msg)
            else logErrorLine (e.name ++ ": " ++ e.msg)
          .ok ⟨{ error := some e.msg, hits := [] }, [params], [line]⟩

/-! ## `parse_hn_response` (source lines 97–149) -/

/-- The HN discussion URL for an object id. -/
def hnItemUrl (object_id : String) : String :=
  "https://news.ycombinator.com/item?id=" ++ object_id

/-- Python string slicing `s[:n]`: the first `n` code points of `s`. -/
def pyTake (s : String) (n : Nat) : String :=
  String.mk (s.toList.take n)

/-- A hit is kept iff `title` or `story_title` is present and non-empty
(the loop skips a hit when both are falsy). -/
def keepHit (hit : Hit) : Bool :=
  truthyStr hit.title ∨ truthyStr hit.story_title

/-- The date computation for one hit: `created_at = hit.get("created_at_i")`
is truthy only when present and non-zero; conversion failures that raise
`ValueError`/`OSError` are swallowed (`date_str` stays `None`), while an
`OverflowError` escapes the except clause. -/
def hitDate (hit : Hit) : Except Exn (Option String) :=
  match hit.created_at_i with
  | none => .ok none
  | some t =>
    if t = 0 then .ok none
    else
      match timestamp_to_date t with
      | .ok s => .ok (some s)
      | .caughtFailure => .ok none
      | .overflowError => .error overflowExn

/-- The item dict built for the hit at (0-based) enumeration index `i` with
an already-computed `date_str` (source lines 118–145). -/
def buildItem (i : Nat) (hit : Hit) (date_str : Option String) : Item :=
  let object_id := hit.objectID.getD ""
  let hn_url := hnItemUrl object_id
  let story_url := pyOrStr hit.url hn_url
  { id := "HN" ++ toString (i + 1)
    title := pyOrStr hit.title (pyOrStr hit.story_title "")
    url := story_url
    hn_url := hn_url
    author := pyOrStr hit.author ""
    date := date_str
    engagement := { score := hit.points, num_comments := hit.num_comments }
    relevance := 7 / 10
    why_relevant := "Hacker News discussion about " ++ pyTake (hit.title.getD "topic") 50 }

/-- The `for i, hit in enumerate(hits)` loop, starting at enumeration
index `i`. -/
def parseHits : Nat → List Hit → Except Exn (List Item)
  | _, [] => .ok []
  | i, hit :: rest =>
    if keepHit hit then
      match hitDate hit with
      | .error e => .error e
      | .ok date_str =>
        match parseHits (i + 1) rest with
        | .error e => .error e
        | .ok items => .ok (buildItem i hit date_str :: items)
    else
      parseHits (i + 1) rest

/-- `parse_hn_response(response)`: empty list when the `error` key is
present, otherwise the enumeration loop over `hits`.  An `.error` result is
an exception propagating out of the function. -/
def parse_hn_response (response : Response) : Except Exn (List Item) :=
  match response.error with
  | some _ => .ok []
  | none => parseHits 0 response.hits

end HN

namespace UI

/-- The mutable fields of a `Spinner` that the non-animated code paths
touch (`thread` and the animation loop are not modelled). -/
structure SpinnerState where
  message : String
  running : Bool
  frame_idx : Nat
  shown_static : Bool
deriving Repr, DecidableEq

/-- `Spinner.__init__(message)`. -/
def Spinner.init (message : String) : SpinnerState :=
  { message := message, running := false, frame_idx := 0, shown_static := false }

/-- `Spinner.start()` given the module-level `IS_TTY` flag: returns the new
state and the lines written to stderr.  In TTY mode it spawns the animation
thread (whose interleaved redraw output is not modelled); in non-TTY mode it
prints the static `⏳` line once and records that via `shown_static`. -/
def Spinner.start (isTTY : Bool) (s : SpinnerState) : SpinnerState × List String :=
  let s₁ := { s with running := true }
  if isTTY then (s₁, [])
  else if s₁.shown_static then (s₁, [])
  else ({ s₁ with shown_static := true }, ["⏳ " ++ s₁.message ++ "\n"])

/-- `Spinner.update(message)`: stores the new message; prints it only when
not a TTY and no static line has been shown (`not self.shown_static`). -/
def Spinner.update (isTTY : Bool) (s : SpinnerState) (message : String) :
    SpinnerState × List String :=
  let s₁ := { s with message := message }
  if ¬ isTTY ∧ ¬ s₁.shown_static then (s₁, ["⏳ " ++ message ++ "\n"])
  else (s₁, [])

end UI

namespace HN

/-! ## Spec-side helpers and concrete fixtures -/

/-- The (0-based) positions, counting from `i`, of the hits the parse loop
keeps; used to state which enumeration index each emitted item's id
reflects. -/
def keptIndices : Nat → List Hit → List Nat
  | _, [] => []
  | i, hit :: rest =>
    if keepHit hit then i :: keptIndices (i + 1) rest else keptIndices (i + 1) rest

/-- A response whose first hit lacks both title fields and whose second
carries a title. -/
def respGap : Response := { hits := [{}, { title := some "A" }] }

/-- A response with two titled hits and no error key. -/
def respPair : Response := { hits := [{ title := some "A" }, { title := some "B" }] }

/-- The items `parse_hn_response` yields on `respPair`. -/
def pairItems : List Item :=
  [buildItem 0 { title := some "A" } none, buildItem 1 { title := some "B" } none]

/-- A response whose single hit has only a `story_title`. -/
def respStoryOnly : Response := { hits := [{ story_title := some "B" }] }

/-- A response carrying an `error` key alongside a well-formed hit. -/
def respErr : Response := { error := some "x", hits := [{ title := some "A" }] }

/-- A titled hit whose `created_at_i` exceeds the 64-bit `time_t` range. -/
def overflowHit : Hit := { title := some "A", created_at_i := some (2 ^ 63) }

/-- An HTTP oracle that always raises `http.HTTPError("boom")`. -/
def httpFail : Params → Except Exn Response :=
  fun _ => .error ⟨"HTTPError", "boom"⟩

/-- An HTTP oracle that always returns an empty successful response. -/
def httpOk : Params → Except Exn Response :=
  fun _ => .ok {}

end HN

namespace HN

/-! ## Helper lemmas about the parse loop -/

/-- Negation of the keep condition is the both-fields-falsy test. -/
theorem keepHit_negb (h : Hit) :
    (!truthyStr h.title && !truthyStr h.story_title) = !keepHit h := by
  simp [keepHit]

/-- Kept plus dropped hits partition the input. -/
theorem length_filter_keep_split (hs : List Hit) :
    (hs.filter keepHit).length + (hs.filter (fun h => !keepHit h)).length = hs.length := by
  induction hs with
  | nil => rfl
  | cons a l ih =>
    cases hk : keepHit a <;> simp [List.filter_cons, hk] <;> omega

/-- A successful parse loop returns one item per kept hit. -/
theorem parseHits_length : ∀ (hits : List Hit) (i : Nat) (items : List Item),
    parseHits i hits = .ok items → items.length = (hits.filter keepHit).length := by
  intro hits
  induction hits with
  | nil =>
    intro i items h
    simp only [parseHits, Except.ok.injEq] at h
    simp [← h]
  | cons hit rest ih =>
    intro i items h
    simp only [parseHits] at h
    cases hk : keepHit hit with
    | false =>
      rw [hk] at h
      simp only [Bool.false_eq_true, if_false] at h
      simp [List.filter_cons, hk, ih _ _ h]
    | true =>
      rw [hk] at h
      simp only [if_true] at h
      cases hd : hitDate hit with
      | error e => rw [hd] at h; simp at h
      | ok ds =>
        rw [hd] at h
        cases hr : parseHits (i + 1) rest with
        | error e => rw [hr] at h; simp at h
        | ok its =>
          rw [hr] at h
          simp only [Except.ok.injEq] at h
          subst h
          simp [List.filter_cons, hk, ih _ _ hr]

/-- A successful parse loop tags each emitted item with the enumeration
index of the hit it came from. -/
theorem parseHits_ids : ∀ (hits : List Hit) (i : Nat) (items : List Item),
    parseHits i hits = .ok items →
    items.map Item.id = (keptIndices i hits).map (fun j => "HN" ++ toString (j + 1)) := by
  intro hits
  induction hits with
  | nil =>
    intro i items h
    simp only [parseHits, Except.ok.injEq] at h
    simp [← h, keptIndices]
  | cons hit rest ih =>
    intro i items h
    simp only [parseHits] at h
    cases hk : keepHit hit with
    | false =>
      rw [hk] at h
      simp only [Bool.false_eq_true, if_false] at h
      simp [keptIndices, hk, ih _ _ h]
    | true =>
      rw [hk] at h
      simp only [if_true] at h
      cases hd : hitDate hit with
      | error e => rw [hd] at h; simp at h
      | ok ds =>
        rw [hd] at h
        cases hr : parseHits (i + 1) rest with
        | error e => rw [hr] at h; simp at h
        | ok its =>
          rw [hr] at h
          simp only [Except.ok.injEq] at h
          subst h
          simp only [List.map_cons, keptIndices, hk, if_true, ih _ _ hr]
          rfl

/-- Every item a successful parse loop emits is built, by `buildItem`, from
some kept hit of the input. -/
theorem parseHits_mem : ∀ (hits : List Hit) (i : Nat) (items : List Item) (item : Item),
    parseHits i hits = .ok items → item ∈ items →
    ∃ j hit ds, hit ∈ hits ∧ keepHit hit = true ∧ item = buildItem j hit ds := by
  intro hits
  induction hits with
  | nil =>
    intro i items item h hm
    simp only [parseHits, Except.ok.injEq] at h
    subst h
    simp at hm
  | cons hit rest ih =>
    intro i items item h hm
    simp only [parseHits] at h
    cases hk : keepHit hit with
    | false =>
      rw [hk] at h
      simp only [Bool.false_eq_true, if_false] at h
      obtain ⟨j, hit₂, ds, hmem, hk₂, heq⟩ := ih _ _ _ h hm
      exact ⟨j, hit₂, ds, List.mem_cons_of_mem _ hmem, hk₂, heq⟩
    | true =>
      rw [hk] at h
      simp only [if_true] at h
      cases hd : hitDate hit with
      | error e => rw [hd] at h; simp at h
      | ok ds =>
        rw [hd] at h
        cases hr : parseHits (i + 1) rest with
        | error e => rw [hr] at h; simp at h
        | ok its =>
          rw [hr] at h
          simp only [Except.ok.injEq] at h
          subst h
          rcases List.mem_cons.mp hm with rfl | hm₂
          · exact ⟨i, hit, ds, List.mem_cons_self _ _, hk, rfl⟩
          · obtain ⟨j, hit₂, ds₂, hmem, hk₂, heq⟩ := ih _ _ _ hr hm₂
            exact ⟨j, hit₂, ds₂, List.mem_cons_of_mem _ hmem, hk₂, heq⟩

end HN

namespace HN

/-! ## Claim theorems: `parse_hn_response` -/

/-- C1, counterexample: on a response whose first hit lacks both title
fields, the first (k = 1) emitted item has id "HN2", not "HN1" — the id
reflects the hit's input position, not the output position. -/
theorem parse_kth_id_counterexample :
    (parse_hn_response respGap).map (List.map Item.id) = .ok ["HN2"] ∧
    ("HN2" : String) ≠ "HN1" :=
  ⟨rfl, by decide⟩

/-- C1 (amended): for every response without an error key that parses
without raising, the emitted items' ids are "HN(j+1)" for the 0-based input
positions j of the kept hits, in input order; ids run "HN1", "HN2", ... over
the output exactly when no hit was excluded. -/
theorem parse_ids_match_input_positions (response : Response) (items : List Item)
    (he : response.error = none) (hp : parse_hn_response response = .ok items) :
    items.map Item.id
      = (keptIndices 0 response.hits).map (fun j => "HN" ++ toString (j + 1)) := by
  have h : parseHits 0 response.hits = .ok items := by
    simpa [parse_hn_response, he] using hp
  exact parseHits_ids response.hits 0 items h

/-- C1, witness: the two-titled-hits response parses to items whose ids are
exactly the tags of their input positions. -/
theorem parse_ids_match_input_positions_witness :
    parse_hn_response respPair = .ok pairItems ∧
    pairItems.map Item.id
      = (keptIndices 0 respPair.hits).map (fun j => "HN" ++ toString (j + 1)) :=
  ⟨rfl, parse_ids_match_input_positions respPair pairItems rfl rfl⟩

/-- C2 (code bug): a hit whose `created_at_i` equals 2^63 is out of range
for the platform `time_t`, so `datetime.fromtimestamp` raises
`OverflowError`, which the `except (ValueError, OSError)` clause does not
catch: `parse_hn_response` raises instead of emitting the item with an
absent date. -/
theorem parse_overflow_timestamp_raises :
    parse_hn_response { hits := [overflowHit] } = .error overflowExn := rfl

/-- C3, counterexample: a hit with only a `story_title` resolves its title
to "B", yet `why_relevant` embeds the literal fallback "topic" (from
`hit.get('title', 'topic')`), not the first 50 characters of the resolved
title. -/
theorem why_relevant_counterexample :
    (parse_hn_response respStoryOnly).map (List.map Item.title) = .ok ["B"] ∧
    (parse_hn_response respStoryOnly).map (List.map Item.why_relevant)
      = .ok ["Hacker News discussion about topic"] ∧
    ("Hacker News discussion about topic" : String)
      ≠ "Hacker News discussion about " ++ pyTake "B" 50 :=
  ⟨rfl, rfl, by decide⟩

/-- C3 (amended): every item emitted by `parse_hn_response` has
`why_relevant` equal to the fixed template embedding the first 50
characters of the hit's `title` field when present, and of the literal
string "topic" otherwise; `story_title` is never consulted for the
caption. -/
theorem why_relevant_from_title_key (response : Response) (items : List Item) (item : Item)
    (he : response.error = none) (hp : parse_hn_response response = .ok items)
    (hm : item ∈ items) :
    ∃ hit ∈ response.hits, keepHit hit = true ∧
      item.why_relevant
        = "Hacker News discussion about " ++ pyTake (hit.title.getD "topic") 50 := by
  have h : parseHits 0 response.hits = .ok items := by
    simpa [parse_hn_response, he] using hp
  obtain ⟨j, hit, ds, hmem, hk, heq⟩ := parseHits_mem response.hits 0 items item h hm
  subst heq
  exact ⟨hit, hmem, hk, rfl⟩

/-- C3, witness: on the story-title-only response the emitted item's
caption embeds the "topic" fallback of its hit's absent `title` field. -/
theorem why_relevant_from_title_key_witness :
    parse_hn_response respStoryOnly = .ok [buildItem 0 { story_title := some "B" } none] ∧
    ∃ hit ∈ respStoryOnly.hits, keepHit hit = true ∧
      (buildItem 0 { story_title := some "B" } none).why_relevant
        = "Hacker News discussion about " ++ pyTake (hit.title.getD "topic") 50 :=
  ⟨rfl, why_relevant_from_title_key respStoryOnly
    [buildItem 0 { story_title := some "B" } none]
    (buildItem 0 { story_title := some "B" } none) rfl rfl (by simp)⟩

/-- C7: for every response without an error key that parses without
raising, exactly the hits with both `title` and `story_title` absent or
empty are excluded, and the output length is the input hit count minus the
number of excluded hits. -/
theorem parse_excludes_exactly_titleless (response : Response) (items : List Item)
    (he : response.error = none) (hp : parse_hn_response response = .ok items) :
    items.length
      = response.hits.length
        - (response.hits.filter
            (fun h => !truthyStr h.title && !truthyStr h.story_title)).length ∧
    items.length
      + (response.hits.filter
          (fun h => !truthyStr h.title && !truthyStr h.story_title)).length
      = response.hits.length := by
  have h : parseHits 0 response.hits = .ok items := by
    simpa [parse_hn_response, he] using hp
  have hl := parseHits_length response.hits 0 items h
  have hpred : response.hits.filter (fun h => !truthyStr h.title && !truthyStr h.story_title)
      = response.hits.filter (fun h => !keepHit h) := by
    simp only [keepHit_negb]
  have hsplit := length_filter_keep_split response.hits
  rw [hpred, hl]
  omega

/-- C7, witness: the gap response has two hits, one excluded, and one
emitted item. -/
theorem parse_excludes_exactly_titleless_witness :
    parse_hn_response respGap = .ok [buildItem 1 { title := some "A" } none] ∧
    ([buildItem 1 { title := some "A" } none].length
       = respGap.hits.length
         - (respGap.hits.filter
             (fun h => !truthyStr h.title && !truthyStr h.story_title)).length ∧
     [buildItem 1 { title := some "A" } none].length
       + (respGap.hits.filter
           (fun h => !truthyStr h.title && !truthyStr h.story_title)).length
       = respGap.hits.length) :=
  ⟨rfl, parse_excludes_exactly_titleless respGap [buildItem 1 { title := some "A" } none] rfl rfl⟩

/-- C8: for every response carrying an `error` key, `parse_hn_response`
returns the empty sequence regardless of the content of `hits`. -/
theorem parse_error_key_returns_empty (response : Response) (he : response.error ≠ none) :
    parse_hn_response response = .ok [] := by
  cases h : response.error with
  | none => exact absurd h he
  | some e => simp [parse_hn_response, h]

/-- C8, witness: a response with an error key and a well-formed hit still
parses to the empty sequence. -/
theorem parse_error_key_returns_empty_witness :
    parse_hn_response respErr = .ok [] :=
  parse_error_key_returns_empty respErr (by decide)

end HN

namespace HN

/-! ## Claim theorems: `search_hn` -/

/-- C9: for every non-null `mock_response`, `search_hn` returns exactly
that object unchanged for all values of topic, dates, depth and HTTP
oracle, issuing no HTTP request and writing nothing to stderr. -/
theorem search_mock_passthrough (g : Params → Except Exn Response)
    (topic from_date to_date depth : String) (mock : Response) :
    search_hn g topic from_date to_date depth (some mock) = .ok ⟨mock, [], []⟩ := rfl

/-- C5: when both dates convert and the HTTP GET raises any exception `e`,
`search_hn` catches it, writes one diagnostic line to stderr, and returns
the sentinel response with `error = str(e)` and empty `hits` — the call
itself never raises. -/
theorem search_http_failure_sentinel (g : Params → Except Exn Response)
    (topic from_date to_date depth : String) (e : Exn) (from_ts to_ts₀ : Int)
    (hf : date_to_timestamp from_date = .ok from_ts)
    (ht : date_to_timestamp to_date = .ok to_ts₀)
    (hg : ∀ p, g p = .error e) :
    search_hn g topic from_date to_date depth none =
      .ok { response := { error := some e.msg, hits := [] }
            requests := [requestParams topic from_ts (to_ts₀ + 86400) (DEPTH_CONFIG depth).2]
            stderrLines := [if e.name = "HTTPError"
                            then logErrorLine ("API error: " ++ e.msg)
                            else logErrorLine (e.name ++ ": " ++ e.msg)] } := by
  simp only [search_hn, hf, ht, hg]

/-- C5, witness: an HTTP oracle that always raises `HTTPError("boom")`
yields the logged sentinel on a concrete valid-date search. -/
theorem search_http_failure_sentinel_witness :
    search_hn httpFail "topic" "2024-01-01" "2024-01-31" "default" none =
      .ok { response := { error := some "boom", hits := [] }
            requests := [requestParams "topic" 1704067200 1706745600 30]
            stderrLines := ["[HN] ERROR: API error: boom\n"] } :=
  search_http_failure_sentinel httpFail "topic" "2024-01-01" "2024-01-31" "default"
    ⟨"HTTPError", "boom"⟩ 1704067200 1706659200 rfl rfl (fun _ => rfl)

/-- C6: with valid dates, `search_hn` requests page size exactly 12 for
"quick", 30 for "default" and 70 for "deep", and for any unrecognized depth
it behaves identically (same returned value, requests and logging) to
depth "default", silently and without error. -/
theorem search_depth_page_size (g : Params → Except Exn Response)
    (topic from_date to_date : String) (from_ts to_ts₀ : Int)
    (hf : date_to_timestamp from_date = .ok from_ts)
    (ht : date_to_timestamp to_date = .ok to_ts₀) :
    requestPageSizes (search_hn g topic from_date to_date "quick" none) = .ok [12] ∧
    requestPageSizes (search_hn g topic from_date to_date "default" none) = .ok [30] ∧
    requestPageSizes (search_hn g topic from_date to_date "deep" none) = .ok [70] ∧
    ∀ depth mock, depth ≠ "quick" → depth ≠ "default" → depth ≠ "deep" →
      search_hn g topic from_date to_date depth mock
        = search_hn g topic from_date to_date "default" mock := by
  refine ⟨?_, ?_, ?_, ?_⟩
  · simp only [search_hn, hf, ht, requestPageSizes]
    cases g (requestParams topic from_ts (to_ts₀ + 86400) (DEPTH_CONFIG "quick").2) <;> rfl
  · simp only [search_hn, hf, ht, requestPageSizes]
    cases g (requestParams topic from_ts (to_ts₀ + 86400) (DEPTH_CONFIG "default").2) <;> rfl
  · simp only [search_hn, hf, ht, requestPageSizes]
    cases g (requestParams topic from_ts (to_ts₀ + 86400) (DEPTH_CONFIG "deep").2) <;> rfl
  · intro depth mock h₁ h₂ h₃
    cases mock with
    | some r => rfl
    | none =>
      have hdc : DEPTH_CONFIG depth = DEPTH_CONFIG "default" := by
        simp [DEPTH_CONFIG, h₁, h₂, h₃]
      simp only [search_hn, hdc]

/-- C6, witness: the concrete page sizes on a valid-date search, and the
unrecognized depth "bogus-depth" behaving as "default". -/
theorem search_depth_page_size_witness :
    requestPageSizes (search_hn httpOk "topic" "2024-01-01" "2024-01-31" "quick" none)
      = .ok [12] ∧
    requestPageSizes (search_hn httpOk "topic" "2024-01-01" "2024-01-31" "default" none)
      = .ok [30] ∧
    requestPageSizes (search_hn httpOk "topic" "2024-01-01" "2024-01-31" "deep" none)
      = .ok [70] ∧
    search_hn httpOk "topic" "2024-01-01" "2024-01-31" "bogus-depth" none
      = search_hn httpOk "topic" "2024-01-01" "2024-01-31" "default" none := by
  have h := search_depth_page_size httpOk "topic" "2024-01-01" "2024-01-31"
    1704067200 1706659200 rfl rfl
  exact ⟨h.1, h.2.1, h.2.2.1,
    h.2.2.2 "bogus-depth" none (by decide) (by decide) (by decide)⟩

/-- C10: with no mock response, the date conversions happen before the
`try` block, so a `from_date` (or a `to_date`, when `from_date` converts)
that `strptime("%Y-%m-%d")` rejects makes `search_hn` raise the
`ValueError` to the caller — the call returns no sentinel. -/
theorem search_invalid_date_raises (g : Params → Except Exn Response)
    (topic from_date to_date depth : String) :
    (strptimeYMD from_date = none →
      search_hn g topic from_date to_date depth none
        = .error (strptimeValueError from_date)) ∧
    (∀ from_ts, date_to_timestamp from_date = .ok from_ts → strptimeYMD to_date = none →
      search_hn g topic from_date to_date depth none
        = .error (strptimeValueError to_date)) := by
  constructor
  · intro hf
    simp only [search_hn, date_to_timestamp, hf]
  · intro from_ts hf ht
    simp only [search_hn, hf]
    simp only [date_to_timestamp, ht]

/-- C10, witness: a malformed `from_date` makes the concrete search raise
the `strptime` `ValueError` rather than return a sentinel. -/
theorem search_invalid_date_raises_witness :
    search_hn httpOk "topic" "not-a-date" "2024-01-31" "default" none
      = .error (strptimeValueError "not-a-date") :=
  (search_invalid_date_raises httpOk "topic" "not-a-date" "2024-01-31" "default").1 rfl

end HN

namespace UI

/-! ## Claim theorems: `Spinner` -/

/-- C4, counterexample: in non-TTY mode, `start()` sets `shown_static`, so
a subsequent `update("next")` prints nothing at all — not the claimed
exactly-one line — and the update is lost from non-interactive logs. -/
theorem spinner_update_after_start_counterexample :
    (Spinner.update false (Spinner.start false (Spinner.init "working")).1 "next").2 = [] ∧
    ([] : List String).length ≠ 1 :=
  ⟨rfl, by decide⟩

/-- C4 (amended): in non-TTY mode `update(message)` replaces the stored
message and prints it exactly once only while no static line has been shown
(`shown_static` false, i.e. before any non-TTY `start()`); once
`shown_static` is set it prints nothing.  In all cases it prints at most
one line per call. -/
theorem spinner_update_nonTTY (s : SpinnerState) (message : String) :
    (Spinner.update false s message).1.message = message ∧
    (Spinner.update false s message).2
      = (if s.shown_static then [] else ["⏳ " ++ message ++ "\n"]) ∧
    (Spinner.update false s message).2.length ≤ 1 := by
  cases hs : s.shown_static <;>
    simp [Spinner.update, hs]

end UI
